import Mathlib

/-
Shallow embedding of src/drivers/kscan/kscan_adc_joystick.c.

Modelling choices:
* uint16 configuration fields (center, deadzone, hysteresis, poll_period_ms)
  and uint8 fields (button_count, button_column_offset) become Nat; all the
  int32 arithmetic of axis_from_sample is exact on these ranges (no overflow:
  |center - (deadzone + hysteresis)| < 2^18 << 2^31), so it is carried out
  in Int.
* int32 ADC samples and int8 axis tri-states become Int.
* adc_read_raw's outcome is an Except Int Int: error e models a negative
  return code, ok v the sample written through out_raw.
* gpio_pin_get_dt's raw result is an Int (negative = error, positive =
  pressed), fed to gpio_is_pressed exactly as in the source.
* the kscan callback is modelled by its presence: data->callback == NULL
  becomes callback = false, and emit_changes returns the list of
  (column, pressed) invocations it performs instead of calling out.
* BIT(n) is 2 ^ n on Nat; the uint32 masks stay below 2 ^ 32 whenever the
  device's BUILD_ASSERT bounds (button_column_offset + button_count <= 32)
  hold, so Nat bitwise operations coincide with uint32 ones.
-/

namespace AdcJoystick

/-- Static configuration of one device instance
(struct kscan_adc_joystick_config, ADC/GPIO specs omitted). -/
structure Config where
  button_count : Nat
  button_column_offset : Nat
  poll_period_ms : Nat
  center : Nat
  deadzone : Nat
  hysteresis : Nat
  invert_x : Bool
  invert_y : Bool
deriving DecidableEq

/-- Mutable per-instance state (struct kscan_adc_joystick_data); the
registered kscan callback is modelled by its presence. -/
structure ScanData where
  callback : Bool
  state_mask : Nat
  axis_x : Int
  axis_y : Int
  enabled : Bool
deriving DecidableEq

/-- BIT(n) of zephyr/sys/util.h. -/
def BIT (n : Nat) : Nat := 2 ^ n

/-- gpio_is_pressed: a negative gpio_pin_get_dt value (an error) reads as
not pressed, otherwise pressed iff the value is positive. -/
def gpio_is_pressed (value : Int) : Bool :=
  if value < 0 then false else decide (value > 0)

/-- low_on threshold of axis_from_sample. -/
def low_on (cfg : Config) : Int :=
  (cfg.center : Int) - ((cfg.deadzone : Int) + (cfg.hysteresis : Int))

/-- low_off threshold of axis_from_sample. -/
def low_off (cfg : Config) : Int :=
  (cfg.center : Int) - ((cfg.deadzone : Int) - (cfg.hysteresis : Int))

/-- high_on threshold of axis_from_sample. -/
def high_on (cfg : Config) : Int :=
  (cfg.center : Int) + ((cfg.deadzone : Int) + (cfg.hysteresis : Int))

/-- high_off threshold of axis_from_sample. -/
def high_off (cfg : Config) : Int :=
  (cfg.center : Int) + ((cfg.deadzone : Int) - (cfg.hysteresis : Int))

/-- axis_from_sample: the per-axis hysteresis quantizer
(kscan_adc_joystick.c lines 81-105). -/
def axis_from_sample (sample : Int) (prev_axis : Int) (cfg : Config) : Int :=
  if prev_axis < 0 then
    if sample < low_off cfg then -1 else 0
  else if prev_axis > 0 then
    if sample > high_off cfg then 1 else 0
  else if sample < low_on cfg then -1
  else if sample > high_on cfg then 1
  else 0

/-- emit_changes (lines 107-124): returns the ordered list of
(column, pressed) callback invocations. -/
def emit_changes (callback : Bool) (old_mask new_mask : Nat) (max_cols : Nat) :
    List (Nat × Bool) :=
  let changed := old_mask ^^^ new_mask
  if callback = false ∨ changed = 0 then []
  else
    (List.range max_cols).filterMap fun col =>
      if changed &&& BIT col = 0 then none
      else some (col, decide (new_mask &&& BIT col ≠ 0))

/-- The direction bits of the new state_mask (lines 155-167): UP=0 iff
axis_y < 0 else DOWN=1 iff axis_y > 0; LEFT=2 iff axis_x < 0 else
RIGHT=3 iff axis_x > 0. -/
def dir_mask (axis_x axis_y : Int) : Nat :=
  let m : Nat := 0
  let m := if axis_y < 0 then m ||| BIT 0 else if axis_y > 0 then m ||| BIT 1 else m
  if axis_x < 0 then m ||| BIT 2 else if axis_x > 0 then m ||| BIT 3 else m

/-- The full new state_mask (lines 155-173): direction bits plus one bit
at button_column_offset + i per pressed button. gpio is the raw
gpio_pin_get_dt result per button index. -/
def scan_mask (cfg : Config) (axis_x axis_y : Int) (gpio : Nat → Int) : Nat :=
  (List.range cfg.button_count).foldl
    (fun acc i =>
      if gpio_is_pressed (gpio i) then acc ||| BIT (cfg.button_column_offset + i)
      else acc)
    (dir_mask axis_x axis_y)

/-- kscan_adc_joystick_scan (lines 126-182): returns (return code,
updated data, emitted events). -/
def kscan_adc_joystick_scan (cfg : Config) (d : ScanData)
    (x_res y_res : Except Int Int) (gpio : Nat → Int) :
    Int × ScanData × List (Nat × Bool) :=
  match x_res with
  | .error e => (e, d, [])
  | .ok x_raw =>
    match y_res with
    | .error e => (e, d, [])
    | .ok y_raw =>
      let ax0 := axis_from_sample x_raw d.axis_x cfg
      let ay0 := axis_from_sample y_raw d.axis_y cfg
      let ax := if cfg.invert_x then -ax0 else ax0
      let ay := if cfg.invert_y then -ay0 else ay0
      let mask := scan_mask cfg ax ay gpio
      let events := emit_changes d.callback d.state_mask mask
        (cfg.button_column_offset + cfg.button_count)
      (0, { d with state_mask := mask, axis_x := ax, axis_y := ay }, events)

/-- A successful-read scan cycle (both ADC reads return ok). -/
def scan_ok (cfg : Config) (d : ScanData) (x y : Int) (gpio : Nat → Int) :
    Int × ScanData × List (Nat × Bool) :=
  kscan_adc_joystick_scan cfg d (Except.ok x) (Except.ok y) gpio

/-- kscan_adc_joystick_work (lines 184-195): runs one scan (ignoring its
return code), then reschedules after poll_period_ms iff the device is
still enabled. Returns (updated data, events, requested delay). -/
def kscan_adc_joystick_work (cfg : Config) (d : ScanData)
    (x_res y_res : Except Int Int) (gpio : Nat → Int) :
    ScanData × List (Nat × Bool) × Option Nat :=
  let r := kscan_adc_joystick_scan cfg d x_res y_res gpio
  (r.2.1, r.2.2, if r.2.1.enabled then some cfg.poll_period_ms else none)

/-- kscan_adc_joystick_configure (lines 197-206): a NULL callback is
rejected with -EINVAL (-22); otherwise the callback is registered. -/
def kscan_adc_joystick_configure (d : ScanData) (callback : Option Unit) :
    Int × ScanData :=
  match callback with
  | none => (-22, d)
  | some _ => (0, { d with callback := true })

/-- kscan_adc_joystick_enable (lines 208-213). -/
def kscan_adc_joystick_enable (d : ScanData) : ScanData :=
  { d with enabled := true }

/-- kscan_adc_joystick_disable (lines 215-220). -/
def kscan_adc_joystick_disable (d : ScanData) : ScanData :=
  { d with enabled := false }

/-- The state set up by kscan_adc_joystick_init (lines 222-232). -/
def init_data : ScanData :=
  { callback := false, state_mask := 0, axis_x := 0, axis_y := 0, enabled := false }

/-- Claim C1: from previous state Neutral, the quantizer returns Negative
iff the sample is below center - deadzone - hysteresis, Positive iff it is
above center + deadzone + hysteresis, and Neutral otherwise. -/
theorem axis_from_sample_from_neutral (s : Int) (cfg : Config) :
    (axis_from_sample s 0 cfg = -1 ↔
      s < (cfg.center : Int) - (cfg.deadzone : Int) - (cfg.hysteresis : Int)) ∧
    (axis_from_sample s 0 cfg = 1 ↔
      s > (cfg.center : Int) + (cfg.deadzone : Int) + (cfg.hysteresis : Int)) ∧
    (axis_from_sample s 0 cfg = 0 ↔
      ¬(s < (cfg.center : Int) - (cfg.deadzone : Int) - (cfg.hysteresis : Int)) ∧
      ¬(s > (cfg.center : Int) + (cfg.deadzone : Int) + (cfg.hysteresis : Int))) := by
  unfold axis_from_sample low_on high_on
  split_ifs <;> (try simp only [false_iff, iff_false, true_iff, iff_true]) <;> omega

/-- Claim C2: from previous state Negative the quantizer stays Negative iff
the sample is below lowOff = center - (deadzone - hysteresis), else becomes
Neutral; from Positive it stays Positive iff the sample is above
highOff = center + (deadzone - hysteresis), else becomes Neutral. -/
theorem axis_from_sample_from_engaged (s : Int) (cfg : Config) :
    (axis_from_sample s (-1) cfg = -1 ↔
      s < (cfg.center : Int) - ((cfg.deadzone : Int) - (cfg.hysteresis : Int))) ∧
    (axis_from_sample s (-1) cfg = 0 ↔
      ¬ s < (cfg.center : Int) - ((cfg.deadzone : Int) - (cfg.hysteresis : Int))) ∧
    (axis_from_sample s 1 cfg = 1 ↔
      s > (cfg.center : Int) + ((cfg.deadzone : Int) - (cfg.hysteresis : Int))) ∧
    (axis_from_sample s 1 cfg = 0 ↔
      ¬ s > (cfg.center : Int) + ((cfg.deadzone : Int) - (cfg.hysteresis : Int))) := by
  unfold axis_from_sample low_off high_off
  split_ifs <;> (try simp only [false_iff, iff_false, true_iff, iff_true]) <;> omega

/-- Claim C8: in one step the quantizer never jumps between the two engaged
directions: from Negative it never returns Positive, and from Positive it
never returns Negative. -/
theorem axis_from_sample_no_direct_reversal (s : Int) (cfg : Config) :
    axis_from_sample s (-1) cfg ≠ 1 ∧ axis_from_sample s 1 cfg ≠ -1 := by
  unfold axis_from_sample
  split_ifs <;> omega

/-- changed & BIT(col) == 0 reads bit col of changed. -/
lemma and_bit_eq_zero (n c : Nat) : n &&& BIT c = 0 ↔ n.testBit c = false := by
  unfold BIT
  constructor
  · intro h
    have h2 : (n &&& 2 ^ c).testBit c = Nat.testBit 0 c := by rw [h]
    simpa [Nat.testBit_and, Nat.testBit_two_pow] using h2
  · intro h
    apply Nat.eq_of_testBit_eq
    intro i
    rcases eq_or_ne i c with rfl | hne
    · simp [Nat.testBit_and, h]
    · have hz : Nat.testBit (2 ^ c) i = false := Nat.testBit_two_pow_of_ne (Ne.symm hne)
      simp [Nat.testBit_and, hz]

/-- (new_mask & BIT(col)) != 0 reads bit col of new_mask. -/
lemma decide_and_bit (n c : Nat) : decide (n &&& BIT c ≠ 0) = n.testBit c := by
  by_cases h : n &&& BIT c = 0
  · have hb := (and_bit_eq_zero n c).mp h
    simp [h, hb]
  · have hb : n.testBit c = true := by
      rcases Bool.eq_false_or_eq_true (n.testBit c) with ht | hf
      · exact ht
      · exact absurd ((and_bit_eq_zero n c).mpr hf) h
    simp [h, hb]

/-- The columns kept by a filterMap whose hits return their input as first
component form a sublist of the scanned list. -/
lemma filterMap_fst_sublist (f : Nat → Option (Nat × Bool))
    (hf : ∀ a c p, f a = some (c, p) → c = a) (l : List Nat) :
    ((l.filterMap f).map Prod.fst).Sublist l := by
  induction l with
  | nil => simp
  | cons a t ih =>
    cases hfa : f a with
    | none =>
      rw [List.filterMap_cons_none hfa]
      exact List.Sublist.cons a ih
    | some b =>
      obtain ⟨c, p⟩ := b
      have hca : c = a := hf a c p hfa
      rw [List.filterMap_cons_some hfa, List.map_cons, hca]
      exact List.Sublist.cons₂ a ih

/-- Claim C4 (counterexample): with a sink registered, oldMask = 0,
newMask = BIT 31 and 8 total columns, bit 31 is set in the XOR yet the
emitter performs no invocation, so the emitter does not report every set
bit of oldMask XOR newMask. -/
theorem emit_changes_misses_out_of_range_column :
    emit_changes true 0 (BIT 31) 8 = [] ∧ (0 ^^^ BIT 31).testBit 31 = true := by
  constructor
  · rfl
  · decide

/-- Claim C4 (amended): with a sink registered the emitter invokes it
exactly once for each column c below totalColumns whose bit differs
between the masks, passing pressed = bit c of newMask, in strictly
increasing column order; with no sink registered it performs no
invocation. (Bits at or above totalColumns are never reported.) -/
theorem emit_changes_diff_spec (old_mask new_mask max_cols : Nat) :
    (∀ c p, ((c, p) ∈ emit_changes true old_mask new_mask max_cols) ↔
      (c < max_cols ∧ (old_mask ^^^ new_mask).testBit c = true ∧
        p = new_mask.testBit c)) ∧
    List.Pairwise (· < ·) ((emit_changes true old_mask new_mask max_cols).map Prod.fst) ∧
    emit_changes false old_mask new_mask max_cols = [] := by
  refine ⟨?_, ?_, by simp [emit_changes]⟩
  · intro c p
    by_cases hch : old_mask ^^^ new_mask = 0
    · simp [emit_changes, hch]
    · simp only [emit_changes, Bool.true_eq_false, false_or, if_neg hch,
        List.mem_filterMap, List.mem_range]
      constructor
      · rintro ⟨a, ha, hfa⟩
        by_cases hb : (old_mask ^^^ new_mask) &&& BIT a = 0
        · rw [if_pos hb] at hfa
          cases hfa
        · rw [if_neg hb] at hfa
          have hpair : a = c ∧ decide (new_mask &&& BIT a ≠ 0) = p := by
            have := Option.some.inj hfa
            exact ⟨congrArg Prod.fst this, congrArg Prod.snd this⟩
          obtain ⟨rfl, rfl⟩ := hpair
          refine ⟨ha, ?_, ?_⟩
          · rcases Bool.eq_false_or_eq_true ((old_mask ^^^ new_mask).testBit a) with ht | hf
            · exact ht
            · exact absurd ((and_bit_eq_zero _ _).mpr hf) hb
          · rw [decide_and_bit]
      · rintro ⟨hc, hbit, rfl⟩
        refine ⟨c, hc, ?_⟩
        have hb : ¬((old_mask ^^^ new_mask) &&& BIT c = 0) := by
          rw [and_bit_eq_zero, hbit]
          simp
        rw [if_neg hb, decide_and_bit]
  · by_cases hch : old_mask ^^^ new_mask = 0
    · simp [emit_changes, hch]
    · simp only [emit_changes, Bool.true_eq_false, false_or, if_neg hch]
      refine List.Pairwise.sublist (filterMap_fst_sublist _ ?_ _) (List.pairwise_lt_range max_cols)
      intro a c p h
      by_cases hb : (old_mask ^^^ new_mask) &&& BIT a = 0
      · rw [if_pos hb] at h
        cases h
      · rw [if_neg hb] at h
        exact (congrArg Prod.fst (Option.some.inj h)).symm

/-- Bits of a Nat below 16, phrased so linear arithmetic can finish once
the Nat is a literal. -/
lemma testBit_numeral_iff (n : Nat) (hn : n < 16) (c : Nat) :
    (Nat.testBit n c = true ↔
      ((c = 0 ∧ n / 1 % 2 = 1) ∨ (c = 1 ∧ n / 2 % 2 = 1) ∨
        (c = 2 ∧ n / 4 % 2 = 1) ∨ (c = 3 ∧ n / 8 % 2 = 1))) := by
  rcases c with _ | _ | _ | _ | c
  · simp [Nat.testBit_to_div_mod]
  · simp [Nat.testBit_to_div_mod]
  · show Nat.testBit n 2 = true ↔ _
    simp [Nat.testBit_to_div_mod]
  · show Nat.testBit n 3 = true ↔ _
    simp [Nat.testBit_to_div_mod]
  · have hb : Nat.testBit n (c + 4) = false := by
      apply Nat.testBit_lt_two_pow
      calc n < 16 := hn
        _ = 2 ^ 4 := by norm_num
        _ ≤ 2 ^ (c + 4) := Nat.pow_le_pow_right (by omega) (by omega)
    simp only [hb]
    constructor
    · intro h
      cases h
    · intro h
      omega

/-- Which bits the direction part of the mask sets. -/
lemma dir_mask_testBit (ax ay : Int) (c : Nat) :
    ((dir_mask ax ay).testBit c = true) ↔
      ((c = 0 ∧ ay < 0) ∨ (c = 1 ∧ 0 < ay) ∨ (c = 2 ∧ ax < 0) ∨ (c = 3 ∧ 0 < ax)) := by
  by_cases hy0 : ay < 0 <;> by_cases hy1 : ay > 0 <;>
    by_cases hx0 : ax < 0 <;> by_cases hx1 : ax > 0 <;>
    simp [dir_mask, BIT, hy0, hy1, hx0, hx1, Nat.testBit_or, Nat.testBit_two_pow] <;>
    first
      | omega
      | (rw [testBit_numeral_iff _ (by omega)]
         omega)

/-- Folding the button loop into an accumulator sets exactly the bits of the
accumulator plus one bit at off + i per index i with a pressed reading. -/
lemma foldl_button_testBit (p : Nat → Bool) (off : Nat) (l : List Nat) :
    ∀ (init c : Nat),
      ((l.foldl (fun acc i => if p i then acc ||| BIT (off + i) else acc) init).testBit c
          = true ↔
        init.testBit c = true ∨ ∃ i ∈ l, p i = true ∧ c = off + i) := by
  induction l with
  | nil =>
    intro init c
    simp
  | cons a t ih =>
    intro init c
    simp only [List.foldl_cons]
    rw [ih]
    cases hp : p a with
    | false => simp [hp]
    | true =>
      simp only [hp, if_true, BIT, Nat.testBit_or, Nat.testBit_two_pow,
        List.mem_cons, Bool.or_eq_true, decide_eq_true_eq]
      constructor
      · rintro ((h | h) | ⟨i, hi, hpi, hc⟩)
        · exact Or.inl h
        · exact Or.inr ⟨a, Or.inl rfl, hp, h.symm⟩
        · exact Or.inr ⟨i, Or.inr hi, hpi, hc⟩
      · rintro (h | ⟨i, (rfl | hi), hpi, hc⟩)
        · exact Or.inl (Or.inl h)
        · exact Or.inl (Or.inr hc.symm)
        · exact Or.inr ⟨i, hi, hpi, hc⟩

/-- Which bits the aggregated state_mask sets. -/
lemma scan_mask_testBit (cfg : Config) (ax ay : Int) (gpio : Nat → Int) (c : Nat) :
    ((scan_mask cfg ax ay gpio).testBit c = true) ↔
      ((c = 0 ∧ ay < 0) ∨ (c = 1 ∧ 0 < ay) ∨ (c = 2 ∧ ax < 0) ∨ (c = 3 ∧ 0 < ax) ∨
        ∃ i, i < cfg.button_count ∧ gpio_is_pressed (gpio i) = true ∧
          c = cfg.button_column_offset + i) := by
  unfold scan_mask
  rw [foldl_button_testBit, dir_mask_testBit]
  simp only [List.mem_range]
  constructor
  · rintro ((h | h | h | h) | ⟨i, hi, hp, hc⟩)
    · exact Or.inl h
    · exact Or.inr (Or.inl h)
    · exact Or.inr (Or.inr (Or.inl h))
    · exact Or.inr (Or.inr (Or.inr (Or.inl h)))
    · exact Or.inr (Or.inr (Or.inr (Or.inr ⟨i, hi, hp, hc⟩)))
  · rintro (h | h | h | h | ⟨i, hi, hp, hc⟩)
    · exact Or.inl (Or.inl h)
    · exact Or.inl (Or.inr (Or.inl h))
    · exact Or.inl (Or.inr (Or.inr (Or.inl h)))
    · exact Or.inl (Or.inr (Or.inr (Or.inr h)))
    · exact Or.inr ⟨i, hi, hp, hc⟩

/-- Claim C6: for any effective axis tri-states and any button readings,
the aggregated mask never sets both UP and DOWN, never sets both LEFT and
RIGHT, and sets no bit outside columns 0-3 and
[button_column_offset, button_column_offset + button_count). -/
theorem scan_mask_invariants (cfg : Config) (ax ay : Int) (gpio : Nat → Int)
    (h4 : 4 ≤ cfg.button_column_offset) :
    ¬((scan_mask cfg ax ay gpio).testBit 0 = true ∧
      (scan_mask cfg ax ay gpio).testBit 1 = true) ∧
    ¬((scan_mask cfg ax ay gpio).testBit 2 = true ∧
      (scan_mask cfg ax ay gpio).testBit 3 = true) ∧
    (∀ c : Nat, (scan_mask cfg ax ay gpio).testBit c = true →
      c < 4 ∨ (cfg.button_column_offset ≤ c ∧
        c < cfg.button_column_offset + cfg.button_count)) := by
  refine ⟨?_, ?_, ?_⟩
  · rintro ⟨h0, h1⟩
    rw [scan_mask_testBit] at h0 h1
    rcases h0 with h | h | h | h | ⟨i, hi, hp, hc⟩ <;>
      rcases h1 with h' | h' | h' | h' | ⟨j, hj, hp', hc'⟩ <;> omega
  · rintro ⟨h2, h3⟩
    rw [scan_mask_testBit] at h2 h3
    rcases h2 with h | h | h | h | ⟨i, hi, hp, hc⟩ <;>
      rcases h3 with h' | h' | h' | h' | ⟨j, hj, hp', hc'⟩ <;> omega
  · intro c hc
    rw [scan_mask_testBit] at hc
    rcases hc with h | h | h | h | ⟨i, hi, hp, hc⟩ <;> omega

/-- Claim C6 (witness): the invariant at a concrete configuration and
concrete inputs. -/
theorem scan_mask_invariants_witness :
    ¬((scan_mask
        { button_count := 2, button_column_offset := 4, poll_period_ms := 10,
          center := 2048, deadzone := 200, hysteresis := 50,
          invert_x := false, invert_y := false } 1 (-1) (fun _ => 1)).testBit 0 = true ∧
      (scan_mask
        { button_count := 2, button_column_offset := 4, poll_period_ms := 10,
          center := 2048, deadzone := 200, hysteresis := 50,
          invert_x := false, invert_y := false } 1 (-1) (fun _ => 1)).testBit 1 = true) :=
  (scan_mask_invariants
    { button_count := 2, button_column_offset := 4, poll_period_ms := 10,
      center := 2048, deadzone := 200, hysteresis := 50,
      invert_x := false, invert_y := false } 1 (-1) (fun _ => 1) (by decide)).1

/-- Claim C5: a failed X or Y ADC read aborts the cycle with the failing
return code, emits no events and leaves the stored state unchanged; a
later successful cycle therefore diffs against the pre-failure state
(scanning from the post-failure state equals scanning from the original
state). -/
theorem kscan_adc_joystick_scan_failure_frame (cfg : Config) (d : ScanData)
    (e e2 : Int) (x : Int) (y_res : Except Int Int) (gpio gpio2 : Nat → Int)
    (x2_res y2_res : Except Int Int) :
    kscan_adc_joystick_scan cfg d (Except.error e) y_res gpio = (e, d, []) ∧
    kscan_adc_joystick_scan cfg d (Except.ok x) (Except.error e2) gpio = (e2, d, []) ∧
    kscan_adc_joystick_scan cfg
        (kscan_adc_joystick_scan cfg d (Except.error e) y_res gpio).2.1
        x2_res y2_res gpio2 =
      kscan_adc_joystick_scan cfg d x2_res y2_res gpio2 := by
  exact ⟨rfl, rfl, rfl⟩

/-- Claim C9: after the work handler runs one scan cycle, whatever the
cycle's outcome (both ADC reads modelled arbitrarily, including failures),
rescheduling after poll_period_ms is requested iff the device is still
enabled. -/
theorem kscan_adc_joystick_work_reschedules_iff_enabled (cfg : Config)
    (d : ScanData) (x_res y_res : Except Int Int) (gpio : Nat → Int) :
    (kscan_adc_joystick_work cfg d x_res y_res gpio).2.2 =
      (if d.enabled then some cfg.poll_period_ms else none) := by
  cases x_res with
  | error e => rfl
  | ok x =>
    cases y_res with
    | error e => rfl
    | ok y => rfl

/-- The direction bits of the aggregated mask read back the effective axis
values whenever the button columns start at or after column 4. -/
lemma scan_mask_dir_bits (cfg : Config) (ax ay : Int) (gpio : Nat → Int)
    (h4 : 4 ≤ cfg.button_column_offset) :
    ((scan_mask cfg ax ay gpio).testBit 0 = true ↔ ay < 0) ∧
    ((scan_mask cfg ax ay gpio).testBit 1 = true ↔ 0 < ay) ∧
    ((scan_mask cfg ax ay gpio).testBit 2 = true ↔ ax < 0) ∧
    ((scan_mask cfg ax ay gpio).testBit 3 = true ↔ 0 < ax) := by
  refine ⟨?_, ?_, ?_, ?_⟩ <;> rw [scan_mask_testBit]
  · constructor
    · rintro (h | h | h | h | ⟨i, hi, hp, hc⟩) <;> omega
    · intro h
      exact Or.inl ⟨rfl, h⟩
  · constructor
    · rintro (h | h | h | h | ⟨i, hi, hp, hc⟩) <;> omega
    · intro h
      exact Or.inr (Or.inl ⟨rfl, h⟩)
  · constructor
    · rintro (h | h | h | h | ⟨i, hi, hp, hc⟩) <;> omega
    · intro h
      exact Or.inr (Or.inr (Or.inl ⟨rfl, h⟩))
  · constructor
    · rintro (h | h | h | h | ⟨i, hi, hp, hc⟩) <;> omega
    · intro h
      exact Or.inr (Or.inr (Or.inr (Or.inl ⟨rfl, h⟩)))

/-- A device configuration with X inversion on and no buttons. -/
def cfg_inv_x : Config :=
  { button_count := 0, button_column_offset := 4, poll_period_ms := 10,
    center := 2048, deadzone := 200, hysteresis := 50,
    invert_x := true, invert_y := false }

/-- Claim C3 (counterexample): with invert_x set, a successful scan at X
sample 0 from the neutral initial state stores axis_x = 1 although the
quantizer applied to the sample and the previous stored state returns -1:
the stored tri-state is the inverted value, not the quantizer result. -/
theorem scan_inversion_affects_stored_axis :
    (scan_ok cfg_inv_x init_data 0 2048 (fun _ => 0)).1 = 0 ∧
    axis_from_sample 0 init_data.axis_x cfg_inv_x = -1 ∧
    (scan_ok cfg_inv_x init_data 0 2048 (fun _ => 0)).2.1.axis_x = 1 := by
  decide

/-- Claim C3 (amended): after every successful scan cycle the stored
per-axis tri-state equals the quantizer result with the axis's inversion
applied (negated when invertX/invertY is set); this effective value is
what the direction bits of the stored column mask reflect, and it is also
the value used as the previous state in the next cycle. -/
theorem kscan_adc_joystick_scan_stores_effective_axis (cfg : Config)
    (d : ScanData) (x y : Int) (gpio : Nat → Int)
    (h4 : 4 ≤ cfg.button_column_offset) :
    (scan_ok cfg d x y gpio).1 = 0 ∧
    (scan_ok cfg d x y gpio).2.1.axis_x =
      (if cfg.invert_x then -(axis_from_sample x d.axis_x cfg)
       else axis_from_sample x d.axis_x cfg) ∧
    (scan_ok cfg d x y gpio).2.1.axis_y =
      (if cfg.invert_y then -(axis_from_sample y d.axis_y cfg)
       else axis_from_sample y d.axis_y cfg) ∧
    ((scan_ok cfg d x y gpio).2.1.state_mask.testBit 0 = true ↔
      (scan_ok cfg d x y gpio).2.1.axis_y < 0) ∧
    ((scan_ok cfg d x y gpio).2.1.state_mask.testBit 1 = true ↔
      0 < (scan_ok cfg d x y gpio).2.1.axis_y) ∧
    ((scan_ok cfg d x y gpio).2.1.state_mask.testBit 2 = true ↔
      (scan_ok cfg d x y gpio).2.1.axis_x < 0) ∧
    ((scan_ok cfg d x y gpio).2.1.state_mask.testBit 3 = true ↔
      0 < (scan_ok cfg d x y gpio).2.1.axis_x) := by
  have hm : (scan_ok cfg d x y gpio).2.1.state_mask =
      scan_mask cfg ((scan_ok cfg d x y gpio).2.1.axis_x)
        ((scan_ok cfg d x y gpio).2.1.axis_y) gpio := rfl
  have hb := scan_mask_dir_bits cfg ((scan_ok cfg d x y gpio).2.1.axis_x)
    ((scan_ok cfg d x y gpio).2.1.axis_y) gpio h4
  rw [hm]
  exact ⟨rfl, rfl, rfl, hb.1, hb.2.1, hb.2.2.1, hb.2.2.2⟩

/-- Claim C3 (witness): the amended statement's first component at a
concrete input. -/
theorem kscan_adc_joystick_scan_stores_effective_axis_witness :
    (scan_ok cfg_inv_x init_data 0 2048 (fun _ => 0)).1 = 0 :=
  (kscan_adc_joystick_scan_stores_effective_axis cfg_inv_x init_data 0 2048
    (fun _ => 0) (by decide)).1

/-- Claim C7 (counterexample): configure with an absent callback is not
accepted: it returns -EINVAL (-22) and leaves the state unchanged. -/
theorem kscan_adc_joystick_configure_none_rejected :
    kscan_adc_joystick_configure init_data none = (-22, init_data) ∧
    ((-22 : Int) ≠ 0) := by
  exact ⟨rfl, by decide⟩

/-- With no callback registered emit_changes performs no invocation. -/
lemma emit_changes_no_callback (a b m : Nat) : emit_changes false a b m = [] := by
  simp [emit_changes]

/-- Claim C7 (amended): configure rejects an absent callback with -EINVAL,
leaving the registered callback unchanged; when no callback is registered
a scan cycle delivers no events yet still succeeds and updates the stored
state exactly as it would with a callback registered. -/
theorem configure_none_and_unregistered_callback (d : ScanData) (cfg : Config)
    (x y : Int) (gpio : Nat → Int) :
    kscan_adc_joystick_configure d none = (-22, d) ∧
    (scan_ok cfg { d with callback := false } x y gpio).2.2 = [] ∧
    (scan_ok cfg { d with callback := false } x y gpio).1 = 0 ∧
    (scan_ok cfg { d with callback := false } x y gpio).2.1 =
      { (scan_ok cfg { d with callback := true } x y gpio).2.1 with
          callback := false } := by
  refine ⟨rfl, ?_, rfl, rfl⟩
  simp [scan_ok, kscan_adc_joystick_scan, emit_changes_no_callback]

/-- A device configuration with one button at column offset 4. -/
def cfg_one_button : Config :=
  { button_count := 1, button_column_offset := 4, poll_period_ms := 10,
    center := 2048, deadzone := 200, hysteresis := 50,
    invert_x := false, invert_y := false }

/-- Claim C10: a failed button read (negative gpio_pin_get_dt result) is
treated as not pressed: the scan cycle still succeeds with return code 0,
and the button's column bit stays clear in the stored mask. -/
theorem scan_failed_button_read_not_pressed (cfg : Config) (d : ScanData)
    (x y : Int) (gpio : Nat → Int) (i : Nat)
    (h4 : 4 ≤ cfg.button_column_offset) (_hi : i < cfg.button_count)
    (hneg : gpio i < 0) :
    gpio_is_pressed (gpio i) = false ∧
    (scan_ok cfg d x y gpio).1 = 0 ∧
    (scan_ok cfg d x y gpio).2.1.state_mask.testBit
      (cfg.button_column_offset + i) = false := by
  have hgp : gpio_is_pressed (gpio i) = false := by
    unfold gpio_is_pressed
    rw [if_pos hneg]
  refine ⟨hgp, rfl, ?_⟩
  have hm : (scan_ok cfg d x y gpio).2.1.state_mask =
      scan_mask cfg ((scan_ok cfg d x y gpio).2.1.axis_x)
        ((scan_ok cfg d x y gpio).2.1.axis_y) gpio := rfl
  rw [hm]
  by_contra hbc
  have hbt : (scan_mask cfg ((scan_ok cfg d x y gpio).2.1.axis_x)
      ((scan_ok cfg d x y gpio).2.1.axis_y) gpio).testBit
      (cfg.button_column_offset + i) = true := by
    rcases Bool.eq_false_or_eq_true ((scan_mask cfg
        ((scan_ok cfg d x y gpio).2.1.axis_x)
        ((scan_ok cfg d x y gpio).2.1.axis_y) gpio).testBit
        (cfg.button_column_offset + i)) with ht | hf
    · exact ht
    · exact absurd hf hbc
  rw [scan_mask_testBit] at hbt
  rcases hbt with h | h | h | h | ⟨j, hj, hp, hc⟩
  · omega
  · omega
  · omega
  · omega
  · have hji : j = i := by omega
    rw [hji, hgp] at hp
    cases hp

/-- Claim C10 (witness): a failed button read at a concrete configuration
reads as not pressed. -/
theorem scan_failed_button_read_not_pressed_witness :
    gpio_is_pressed (-5) = false :=
  (scan_failed_button_read_not_pressed cfg_one_button init_data 0 0
    (fun _ => -5) 0 (by decide) (by decide) (by decide)).1

end AdcJoystick
